import Mathlib

set_option maxRecDepth 20000

/-!
Verification development for the jira-mcp server (src/index.ts).

The development shallowly embeds the server's six tool handlers, its
dispatcher, and the acceptance-criteria extraction heuristic.  JavaScript
regular-expression matching (as used by `String.prototype.match` with the
`g` flag and `String.prototype.replace` with a non-global pattern) is
embedded by a small backtracking engine over an abstract syntax of the
five concrete patterns appearing in the source.  JavaScript truthiness on
strings (`undefined` and `""` are falsy) and on numbers (`0` is falsy) is
made explicit, as is the rendering of `undefined` inside template
literals.  Remote HTTP communication is an oracle: each handler receives
a `RemoteEnv` of per-endpoint responses, and every outbound request the
handler issues is recorded in a log so that frame conditions (which
requests were or were not sent) can be stated.
-/

/-! ### JavaScript string and number helpers -/

/-- Rendering of a possibly-undefined string inside a template literal:
JavaScript renders `undefined` as the text "undefined". -/
def jsShow : Option String → String
  | some s => s
  | none => "undefined"

/-- JavaScript truthiness of a possibly-undefined string:
`undefined` and the empty string are falsy. -/
def truthy : Option String → Bool
  | some s => s != ""
  | none => false

/-- JavaScript `a || b` where `a` is a possibly-undefined string and `b`
a (present) default string. -/
def jsOrStr (a : Option String) (b : String) : String :=
  if truthy a then jsShow a else b

/-- JavaScript `a || b` on two possibly-undefined strings. -/
def jsOrOpt (a b : Option String) : Option String :=
  if truthy a then a else b

/-- JavaScript `n || d` on a possibly-undefined number with default `d`:
`undefined` and `0` are falsy. -/
def jsOrNat (a : Option Nat) (d : Nat) : Nat :=
  match a with
  | some n => if n = 0 then d else n
  | none => d

/-- The character set of the JavaScript `\s` regex class and of
`String.prototype.trim`, restricted to the code points that can occur in
this development. -/
def isJsSpace (c : Char) : Bool :=
  c = ' ' || c = '\t' || c = '\n' || c = '\r' || c = '\x0b' || c = '\x0c' ||
  c = ' ' || c = '﻿'

/-- JavaScript `String.prototype.trim`. -/
def jsTrim (s : String) : String :=
  String.mk (((s.data.dropWhile isJsSpace).reverse.dropWhile isJsSpace).reverse)

/-- JavaScript `String.prototype.toLowerCase`, restricted to ASCII. -/
def jsToLower (s : String) : String :=
  String.mk (s.data.map Char.toLower)

/-- ASCII letter test: the class `[A-Z]` under the `i` flag. -/
def isAsciiLetter (c : Char) : Bool :=
  ('A' ≤ c && c ≤ 'Z') || ('a' ≤ c && c ≤ 'z')

/-- Substring test, `String.prototype.includes`, on character lists. -/
def listContainsSub (pat : List Char) : List Char → Bool
  | [] => pat.isPrefixOf []
  | c :: tail => pat.isPrefixOf (c :: tail) || listContainsSub pat tail

/-- JavaScript `String.prototype.includes`. -/
def containsSub (s pat : String) : Bool :=
  listContainsSub pat.data s.data

/-! ### A backtracking regex engine for the source's five patterns

The engine follows JavaScript ordering semantics: alternation prefers the
left branch, greedy repetition prefers longer matches, lazy repetition
prefers shorter matches, and a lookahead consumes nothing.  `star`
iteration is bounded by a fuel argument; every pattern in the source
consumes at least one character per iteration, so fuel `length + 1`
is exact on every input. -/

/-- Syntax of the regular expressions appearing in the source.  `chrCI c`
is a case-insensitive literal (stored lowercase), `dot all` is `.` (with
`all = true` under the `s` flag), `cls p` a character class, `star r lz`
is `r*` (`lz = true` for the lazy `*?`), `look r` the lookahead `(?=r)`,
and `eos` the anchor `$`. -/
inductive Rx where
  | eps
  | chr (c : Char)
  | chrCI (c : Char)
  | dot (all : Bool)
  | cls (p : Char → Bool)
  | seq (a b : Rx)
  | alt (a b : Rx)
  | opt (r : Rx)
  | star (r : Rx) (lz : Bool)
  | look (r : Rx)
  | eos

/-- Iteration of a `star` body: `matchR` matches one copy of the body,
`k` is the continuation after the star, and the fuel bounds the number of
iterations.  Greedy stars try one more copy first; lazy stars try the
continuation first. -/
def starLoop (matchR : List Char → (List Char → Option (List Char)) → Option (List Char))
    (lz : Bool) (k : List Char → Option (List Char)) : Nat → List Char → Option (List Char)
  | 0, s => k s
  | fuel + 1, s =>
    if lz then
      (k s).orElse (fun _ => matchR s (fun s2 => starLoop matchR lz k fuel s2))
    else
      (matchR s (fun s2 => starLoop matchR lz k fuel s2)).orElse (fun _ => k s)

/-- The matcher in continuation-passing style: `reMatch fuel r s k`
matches `r` against a prefix of `s` and passes the remaining suffix to
`k`, backtracking through `k`'s failures in JavaScript priority order. -/
def reMatch (fuel : Nat) : Rx → List Char → (List Char → Option (List Char)) → Option (List Char)
  | .eps, s, k => k s
  | .chr c, s, k =>
    match s with
    | [] => none
    | x :: rest => if x = c then k rest else none
  | .chrCI c, s, k =>
    match s with
    | [] => none
    | x :: rest => if x.toLower = c then k rest else none
  | .dot all, s, k =>
    match s with
    | [] => none
    | x :: rest => if all || !(x = '\n') then k rest else none
  | .cls p, s, k =>
    match s with
    | [] => none
    | x :: rest => if p x then k rest else none
  | .seq a b, s, k => reMatch fuel a s (fun s2 => reMatch fuel b s2 k)
  | .alt a b, s, k => (reMatch fuel a s k).orElse (fun _ => reMatch fuel b s k)
  | .opt r, s, k => (reMatch fuel r s k).orElse (fun _ => k s)
  | .star r lz, s, k => starLoop (fun s2 k2 => reMatch fuel r s2 k2) lz k fuel s
  | .look r, s, k =>
    match reMatch fuel r s some with
    | some _ => k s
    | none => none
  | .eos, s, k =>
    match s with
    | [] => k s
    | _ :: _ => none

/-- Leftmost match search: returns the start index and length of the
first match, scanning successive start positions like a JavaScript
regex with `lastIndex` semantics. -/
def reFind (fuel : Nat) (r : Rx) : List Char → Option (Nat × Nat)
  | [] =>
    match reMatch fuel r [] some with
    | some _ => some (0, 0)
    | none => none
  | c :: tail =>
    match reMatch fuel r (c :: tail) some with
    | some rest => some (0, (c :: tail).length - rest.length)
    | none => (reFind fuel r tail).map (fun p => (p.1 + 1, p.2))

/-- All matches of a global (`g`-flag) regex, left to right, resuming
after each match (advancing one position past a zero-length match). -/
def reMatchAllAux (fuel : Nat) (r : Rx) : Nat → List Char → List String
  | 0, _ => []
  | gas + 1, s =>
    match reFind fuel r s with
    | none => []
    | some (i, len) =>
      String.mk ((s.drop i).take len) :: reMatchAllAux fuel r gas (s.drop (i + max len 1))

/-- JavaScript `str.match(re)` with the `g` flag (the `null` result and
the empty list both contribute no matches downstream). -/
def jsMatchAll (r : Rx) (s : String) : List String :=
  reMatchAllAux (s.data.length + 1) r (s.data.length + 1) s.data

/-- First-match replacement by the empty string on character lists:
`none` when the pattern does not occur. -/
def reReplaceAux (fuel : Nat) (r : Rx) : List Char → Option (List Char)
  | [] =>
    match reMatch fuel r [] some with
    | some rest => some rest
    | none => none
  | c :: tail =>
    match reMatch fuel r (c :: tail) some with
    | some rest => some rest
    | none => (reReplaceAux fuel r tail).map (fun t => c :: t)

/-- JavaScript `str.replace(re, '')` with a non-global regex: removes the
leftmost match, if any. -/
def reReplaceFirst (r : Rx) (s : String) : String :=
  match reReplaceAux (s.data.length + 1) r s.data with
  | some res => String.mk res
  | none => s

/-- A case-sensitive literal. -/
def litList : List Char → Rx
  | [] => .eps
  | c :: cs => .seq (.chr c) (litList cs)

/-- A case-insensitive literal (argument given in lowercase). -/
def litCIList : List Char → Rx
  | [] => .eps
  | c :: cs => .seq (.chrCI c) (litCIList cs)

def lit (s : String) : Rx := litList s.data

def litCI (s : String) : Rx := litCIList s.data

/-! ### The five acceptance-criteria patterns of the source -/

/-- The lookahead `(?=\n\n|\n[A-Z]|$)` under the `i` flag ( `[A-Z]`
matches either case). -/
def tailBoundary : Rx :=
  .look (.alt (lit "\n\n") (.alt (.seq (.chr '\n') (.cls isAsciiLetter)) .eos))

/-- The common tail `:?\s*(.*?)(?=\n\n|\n[A-Z]|$)` of the two label
patterns, under the `s` and `i` flags. -/
def acLabelTail : Rx :=
  .seq (.opt (.chr ':')) (.seq (.star (.cls isJsSpace) false)
    (.seq (.star (.dot true) true) tailBoundary))

/-- Pattern `/acceptance criteria:?\s*(.*?)(?=\n\n|\n[A-Z]|$)/gsi`. -/
def pat1 : Rx := .seq (litCI "acceptance criteria") acLabelTail

/-- Pattern `/ac:?\s*(.*?)(?=\n\n|\n[A-Z]|$)/gsi`. -/
def pat2 : Rx := .seq (litCI "ac") acLabelTail

/-- Pattern `/given.*when.*then.*/gsi`. -/
def pat3 : Rx :=
  .seq (litCI "given") (.seq (.star (.dot true) false)
    (.seq (litCI "when") (.seq (.star (.dot true) false)
      (.seq (litCI "then") (.star (.dot true) false)))))

/-- The checkbox pattern (flag `g`): literal "- [", the class `[ x]`,
literal "] ", then `.*`. -/
def pat4 : Rx :=
  .seq (lit "- [") (.seq (.cls (fun c => c = ' ' || c = 'x'))
    (.seq (lit "] ") (.star (.dot false) false)))

/-- Pattern `/\* .*/g`. -/
def pat5 : Rx := .seq (lit "* ") (.star (.dot false) false)

/-- The regex of the cleaning replacements: a case-insensitive label
literal followed by an optional colon (`/acceptance criteria:?/i` and
`/ac:?/i`). -/
def labelRx (n : String) : Rx := .seq (litCI n) (.opt (.chr ':'))

/-- The pattern list of `extractAcceptanceCriteria`, in source order. -/
def acPatterns : List Rx := [pat1, pat2, pat3, pat4, pat5]

/-- The per-match cleaning step of the source:
`match.replace(/acceptance criteria:?/i, '').replace(/ac:?/i, '').trim()`. -/
def cleanACMatch (m : String) : String :=
  jsTrim (reReplaceFirst (labelRx "ac") (reReplaceFirst (labelRx "acceptance criteria") m))

/-- `extractAcceptanceCriteria` from the source.  The argument is the
possibly-undefined description (`if (!description) return []` covers both
`undefined` and the empty string); each pattern's matches are cleaned and
pushed unless already present. -/
def extractAcceptanceCriteria (description : Option String) : List String :=
  match description with
  | none => []
  | some d =>
    if d = "" then []
    else
      acPatterns.foldl (fun criteria pat =>
        (jsMatchAll pat d).foldl (fun criteria m =>
          if cleanACMatch m != "" && !(criteria.contains (cleanACMatch m)) then
            criteria ++ [cleanACMatch m]
          else criteria) criteria) []

/-! ### Data model of the server -/

/-- A JSON-like value: the shapes appearing in this server's request
bodies and query parameters.  `undef` is JavaScript `undefined` passed as
a value. -/
inductive JVal where
  | str (s : String)
  | num (n : Nat)
  | undefinedVal
  | obj (fields : List (String × JVal))
  | arr (elems : List JVal)

/-- A possibly-undefined string as a `JVal`. -/
def optVal : Option String → JVal
  | some s => .str s
  | none => .undefinedVal

/-- A record of one outbound HTTP request issued through
`makeJiraRequest`: endpoint (relative to the API base), method, query
parameters, and JSON body. -/
structure LoggedRequest where
  endpoint : String
  method : String
  params : List (String × JVal)
  data : Option JVal

/-- One content block of a tool response envelope. -/
structure ContentItem where
  type : String
  text : String
deriving DecidableEq

/-- The tool response envelope `content: [...]`. -/
structure ToolResponse where
  content : List ContentItem
deriving DecidableEq

/-- The fields object of a `GET /issue/{key}` response; every field the
source dereferences optionally is optional here. -/
structure IssueFields where
  summary : Option String := none
  status : Option String := none
  assignee : Option String := none
  reporter : Option String := none
  priority : Option String := none
  created : Option String := none
  updated : Option String := none
  description : Option String := none

/-- A `GET /issue/{key}` response body (with `renderedFields` expansion):
`renderedDescription` is `renderedFields?.description`. -/
structure GetIssueData where
  key : Option String := none
  fields : IssueFields := {}
  renderedDescription : Option String := none

/-- One issue of a `GET /search` response; optional exactly where the
source dereferences with `?.` or defaults with `||`. -/
structure SearchIssue where
  key : Option String := none
  summary : Option String := none
  status : Option String := none
  assignee : Option String := none
  priority : Option String := none

/-- A `GET /search` response body: the `issues` array may be absent. -/
structure SearchData where
  issues : Option (List SearchIssue) := none

/-- One comment of a `GET /issue/{key}/comment` response. -/
structure CommentData where
  author : Option String := none
  created : Option String := none
  renderedBody : Option String := none
  body : Option String := none

/-- A `GET /issue/{key}/comment` response body. -/
structure CommentsData where
  comments : Option (List CommentData) := none

/-- One transition of a `GET /issue/{key}/transitions` response: the
source dereferences `t.name` and `t.id` directly and `t.to?.name`
optionally. -/
structure TransitionData where
  id : String
  name : String
  toName : Option String := none
deriving DecidableEq

/-- A `GET /issue/{key}/transitions` response body: the `transitions`
array may be absent. -/
structure TransitionsData where
  transitions : Option (List TransitionData) := none

/-- A `POST /issue` (create) response body. -/
structure CreateData where
  key : Option String := none

/-- The remote oracle: the configured base URL and the response each
endpoint would return on this invocation (`Except.error` is a rejected
promise from axios), plus the locale date renderer
`new Date(x).toLocaleDateString()`, which is environment-dependent. -/
structure RemoteEnv where
  baseUrl : String
  getIssueResp : Except String GetIssueData
  searchResp : Except String SearchData
  commentsResp : Except String CommentsData
  transitionsResp : Except String TransitionsData
  postTransitionResp : Except String Unit
  putFieldsResp : Except String Unit
  createResp : Except String CreateData
  localeDate : Option String → String

/-- The argument bag of a tool call, restricted to the keys the
dispatcher reads; every entry may be absent. -/
structure ToolArgs where
  issueKey : Option String := none
  jql : Option String := none
  maxResults : Option Nat := none
  transition : Option String := none
  assignee : Option String := none
  summary : Option String := none
  description : Option String := none
  priority : Option String := none
  projectKey : Option String := none
  issueType : Option String := none
  labels : Option (List String) := none

/-- A handler outcome: the response (or a thrown error) and the log of
issued requests. -/
abbrev HandlerResult := Except String ToolResponse × List LoggedRequest

/-- The single-text-block envelope every handler builds. -/
def textResponse (t : String) : ToolResponse :=
  ⟨[⟨"text", t⟩]⟩

/-! ### The six handlers -/

/-- `getIssue` from the source. -/
def getIssue (issueKey : String) (env : RemoteEnv) : HandlerResult :=
  let req : LoggedRequest :=
    ⟨"/issue/" ++ issueKey, "GET",
      [("fields", .str "summary,status,assignee,priority,created,updated,description,issuetype,reporter,parent"),
       ("expand", .str "renderedFields")], none⟩
  match env.getIssueResp with
  | .error e => (.error e, [req])
  | .ok data =>
    let description := jsOrOpt data.renderedDescription data.fields.description
    let acceptanceCriteria := extractAcceptanceCriteria description
    let key := jsShow data.key
    let url := env.baseUrl ++ "/browse/" ++ key
    let acSection :=
      if acceptanceCriteria.length > 0 then
        String.intercalate "\n"
          (acceptanceCriteria.enum.map (fun p => toString (p.1 + 1) ++ ". " ++ p.2))
      else "None found"
    let text :=
      ("**" ++ key ++ ": " ++ jsShow data.fields.summary ++ "**\n\n" ++
       "**Status:** " ++ jsShow data.fields.status ++ "\n" ++
       "**Assignee:** " ++ jsOrStr data.fields.assignee "Unassigned" ++ "\n" ++
       "**Priority:** " ++ jsShow data.fields.priority ++ "\n" ++
       "**URL:** " ++ url ++ "\n\n" ++
       "**Description:**\n" ++ jsShow description ++ "\n\n" ++
       "**Acceptance Criteria:**\n") ++ acSection ++
      ("\n\n**Created:** " ++ env.localeDate data.fields.created ++ "\n" ++
       "**Updated:** " ++ env.localeDate data.fields.updated)
    (.ok (textResponse text), [req])

/-- `searchIssues` from the source. -/
def searchIssues (jql : Option String) (maxResults : Nat) (env : RemoteEnv) : HandlerResult :=
  let req : LoggedRequest :=
    ⟨"/search", "GET",
      [("jql", optVal jql), ("maxResults", .num maxResults),
       ("fields", .str "summary,status,assignee,priority,created,updated")], none⟩
  match env.searchResp with
  | .error e => (.error e, [req])
  | .ok data =>
    let issues := (data.issues.getD []).map (fun issue =>
      (jsShow issue.key, jsShow issue.summary, jsShow issue.status,
       jsOrStr issue.assignee "Unassigned", jsShow issue.priority))
    let text :=
      "Found " ++ toString issues.length ++ " issues:\n\n" ++
      String.intercalate "\n\n" (issues.map (fun i =>
        "**" ++ i.1 ++ "**: " ++ i.2.1 ++ "\n- Status: " ++ i.2.2.1 ++
        "\n- Assignee: " ++ i.2.2.2.1 ++ "\n- Priority: " ++ i.2.2.2.2 ++
        "\n- URL: " ++ env.baseUrl ++ "/browse/" ++ i.1))
    (.ok (textResponse text), [req])

/-- `getIssueComments` from the source. -/
def getIssueComments (issueKey : String) (env : RemoteEnv) : HandlerResult :=
  let req : LoggedRequest := ⟨"/issue/" ++ issueKey ++ "/comment", "GET", [], none⟩
  match env.commentsResp with
  | .error e => (.error e, [req])
  | .ok data =>
    let comments := (data.comments.getD []).map (fun c =>
      (jsShow c.author, c.created, jsOrOpt c.renderedBody c.body))
    let text :=
      "Comments for " ++ issueKey ++ ":\n\n" ++
      String.intercalate "\n\n---\n\n" (comments.map (fun c =>
        "**" ++ c.1 ++ "** (" ++ env.localeDate c.2.1 ++ "):\n" ++ jsShow c.2.2))
    (.ok (textResponse text), [req])

/-- `getTransitions` from the source. -/
def getTransitions (issueKey : String) (env : RemoteEnv) : HandlerResult :=
  let req : LoggedRequest := ⟨"/issue/" ++ issueKey ++ "/transitions", "GET", [], none⟩
  match env.transitionsResp with
  | .error e => (.error e, [req])
  | .ok data =>
    let transitions := (data.transitions.getD []).map (fun t => (t.id, t.name, t.toName))
    let text :=
      "Available transitions for " ++ issueKey ++ ":\n\n" ++
      String.intercalate "\n" (transitions.map (fun t =>
        "**" ++ t.2.1 ++ "** (ID: " ++ t.1 ++ ") -> " ++ jsShow t.2.2))
    (.ok (textResponse text), [req])

/-- The transition-resolution predicate of `updateIssue`:
`t.name.toLowerCase() === transition.toLowerCase() || t.id === transition`. -/
def transitionMatches (transition : String) (t : TransitionData) : Bool :=
  jsToLower t.name == jsToLower transition || t.id == transition

/-- A truthiness-guarded field entry of the `fields` update object. -/
def optField (name : String) (v : Option String) (mk : String → JVal) : List (String × JVal) :=
  match v with
  | some s => if s = "" then [] else [(name, mk s)]
  | none => []

/-- `updateIssue` from the source: an optional transition phase and an
optional field-update phase, each catching its own errors. -/
def updateIssue (args : ToolArgs) (env : RemoteEnv) : HandlerResult :=
  let issueKey := jsShow args.issueKey
  let getReq : LoggedRequest := ⟨"/issue/" ++ issueKey ++ "/transitions", "GET", [], none⟩
  let phase1 : String × List LoggedRequest :=
    if truthy args.transition then
      let transition := jsShow args.transition
      match env.transitionsResp with
      | .error e => ("✗ Failed to change status: " ++ e ++ "\n", [getReq])
      | .ok tdata =>
        match (match tdata.transitions with
               | none => none
               | some ts => ts.find? (transitionMatches transition)) with
        | none =>
          ("✗ Failed to change status: Transition \"" ++ transition ++
           "\" not found. Use jira_get_transitions to see available options.\n", [getReq])
        | some availableTransition =>
          let postReq : LoggedRequest :=
            ⟨"/issue/" ++ issueKey ++ "/transitions", "POST", [],
             some (.obj [("transition", .obj [("id", .str availableTransition.id)])])⟩
          match env.postTransitionResp with
          | .error e => ("✗ Failed to change status: " ++ e ++ "\n", [getReq, postReq])
          | .ok _ =>
            ("✓ Status changed to " ++ jsOrStr availableTransition.toName transition ++ "\n",
             [getReq, postReq])
    else ("", [])
  let fields : List (String × JVal) :=
    optField "assignee" args.assignee (fun a => .obj [("emailAddress", .str a)]) ++
    optField "summary" args.summary .str ++
    optField "description" args.description .str ++
    optField "priority" args.priority (fun p => .obj [("name", .str p)])
  let phase2 : String × List LoggedRequest :=
    if fields.length > 0 then
      let putReq : LoggedRequest :=
        ⟨"/issue/" ++ issueKey, "PUT", [], some (.obj [("fields", .obj fields)])⟩
      match env.putFieldsResp with
      | .error e => ("✗ Failed to update fields: " ++ e ++ "\n", [putReq])
      | .ok _ =>
        ("✓ Updated fields: " ++ String.intercalate ", " (fields.map Prod.fst) ++ "\n", [putReq])
    else ("", [])
  let updateResult := phase1.1 ++ phase2.1
  (.ok (textResponse ("Update results for " ++ issueKey ++ ":\n\n" ++
     (if updateResult = "" then "No updates requested" else updateResult))),
   phase1.2 ++ phase2.2)

/-- A truthiness-guarded conditional segment of a template literal
(JavaScript ternary on a possibly-undefined string). -/
def condStr (v : Option String) (f : String → String) : String :=
  match v with
  | some s => if s = "" then "" else f s
  | none => ""

/-- `createIssue` from the source. -/
def createIssue (args : ToolArgs) (env : RemoteEnv) : HandlerResult :=
  let issueType := match args.issueType with | none => "Task" | some t => t
  let fields : List (String × JVal) :=
    [("project", .obj [("key", optVal args.projectKey)]),
     ("summary", optVal args.summary),
     ("issuetype", .obj [("name", .str issueType)])] ++
    optField "description" args.description .str ++
    optField "priority" args.priority (fun p => .obj [("name", .str p)]) ++
    (match args.labels with
     | some ls =>
       if ls.length > 0 then
         [("labels", .arr (ls.map (fun l => .obj [("name", .str l)])))]
       else []
     | none => [])
  let req : LoggedRequest := ⟨"/issue", "POST", [], some (.obj [("fields", .obj fields)])⟩
  match env.createResp with
  | .ok data =>
    let issueKey := jsShow data.key
    let issueUrl := env.baseUrl ++ "/browse/" ++ issueKey
    let text :=
      "✓ Successfully created issue: **" ++ issueKey ++ "**\n\n" ++
      "**Summary:** " ++ jsShow args.summary ++ "\n" ++
      "**Project:** " ++ jsShow args.projectKey ++ "\n" ++
      "**Issue Type:** " ++ issueType ++ "\n" ++
      condStr args.priority (fun p => "**Priority:** " ++ p) ++ "\n" ++
      condStr args.assignee (fun a => "**Assignee:** " ++ a) ++ "\n" ++
      (match args.labels with
       | some ls => if ls.length > 0 then "**Labels:** " ++ String.intercalate ", " ls else ""
       | none => "") ++ "\n\n" ++
      "**URL:** " ++ issueUrl ++ "\n\n" ++
      condStr args.description (fun d => "**Description:**\n" ++ d)
    (.ok (textResponse text), [req])
  | .error errorMessage =>
    let helpfulError :=
      errorMessage ++
      (if containsSub errorMessage "project" || containsSub errorMessage "Project" then
        "\n\nTip: Make sure the project key \"" ++ jsShow args.projectKey ++
        "\" exists and you have permission to create issues in it."
       else "") ++
      (if containsSub errorMessage "issuetype" || containsSub errorMessage "Issue Type" then
        "\n\nTip: Make sure the issue type \"" ++ issueType ++
        "\" is valid for this project. Common types: Task, Bug, Story, Epic."
       else "") ++
      (if containsSub errorMessage "priority" then
        "\n\nTip: Make sure the priority \"" ++ jsShow args.priority ++
        "\" is valid. Common priorities: Highest, High, Medium, Low, Lowest."
       else "")
    (.ok (textResponse ("✗ Failed to create issue: " ++ helpfulError)), [req])

/-! ### The dispatcher -/

/-- The six advertised tool names, in catalog order. -/
def toolNames : List String :=
  ["jira_get_issue", "jira_search_issues", "jira_get_issue_comments",
   "jira_get_transitions", "jira_update_issue", "jira_create_issue"]

/-- The switch inside the dispatcher's try block: routes by name and
returns the handler's outcome, or throws `Unknown tool` on the default
branch. -/
def dispatchTool (name : String) (args : ToolArgs) (env : RemoteEnv) : HandlerResult :=
  if name = "jira_get_issue" then getIssue (jsShow args.issueKey) env
  else if name = "jira_search_issues" then
    searchIssues args.jql (jsOrNat args.maxResults 50) env
  else if name = "jira_get_issue_comments" then getIssueComments (jsShow args.issueKey) env
  else if name = "jira_get_transitions" then getTransitions (jsShow args.issueKey) env
  else if name = "jira_update_issue" then updateIssue args env
  else if name = "jira_create_issue" then createIssue args env
  else (.error ("Unknown tool: " ++ name), [])

/-- The `CallToolRequestSchema` handler: the try/catch around the
dispatch switch, converting any thrown error into a single text block
prefixed with "Error: ". -/
def handleCallTool (name : String) (args : ToolArgs) (env : RemoteEnv) : ToolResponse :=
  match (dispatchTool name args env).1 with
  | .ok r => r
  | .error e => textResponse ("Error: " ++ e)

/-! ### Specification-side characterizations

`firstSeenDedup` formalizes the spec's words for the extractor's
duplicate handling; `specCleanACMatch` formalizes the (amended) words for
the per-match cleaning step.  Both are compared with the source-derived
definitions by theorem. -/

/-- Modelled from the spec: "duplicate strings (after stripping) are
suppressed but first-seen order is preserved" — keep each string at its
first occurrence only. -/
def firstSeenDedup (l : List String) : List String :=
  l.foldl (fun acc x => if acc.contains x then acc else acc ++ [x]) []

/-- Case-insensitive prefix test (needle given lowercase). -/
def ciPrefixAt : List Char → List Char → Bool
  | [], _ => true
  | _ :: _, [] => false
  | n :: ns, c :: cs => (c.toLower == n) && ciPrefixAt ns cs

/-- Index of the first case-insensitive occurrence of a needle. -/
def ciFindIdx (n : List Char) : List Char → Option Nat
  | [] => if ciPrefixAt n [] then some 0 else none
  | c :: tail =>
    if ciPrefixAt n (c :: tail) then some 0
    else (ciFindIdx n tail).map (fun i => i + 1)

/-- Drop one leading colon, if present. -/
def dropColon : List Char → List Char
  | [] => []
  | c :: rest => if c = ':' then rest else c :: rest

/-- Modelled from the spec (amended): remove the first case-insensitive
occurrence of a label, together with one directly following colon, from
anywhere in the text; leave the text unchanged when the label does not
occur. -/
def removeLabelCI (n : List Char) (l : List Char) : List Char :=
  match ciFindIdx n l with
  | none => l
  | some i => l.take i ++ dropColon (l.drop (i + n.length))

/-- Modelled from the spec (amended): cleaning removes the first
occurrence anywhere of "acceptance criteria" (optional colon,
case-insensitive), then the first occurrence anywhere of "ac" (optional
colon, case-insensitive), then trims surrounding whitespace. -/
def specCleanACMatch (m : String) : String :=
  jsTrim (String.mk (removeLabelCI "ac".data (removeLabelCI "acceptance criteria".data m.data)))

/-! ### Lemmas about the extractor fold -/

theorem dedup_filter_foldl (p : String → Bool) (l : List String) (acc : List String) :
    (l.filter p).foldl (fun acc x => if acc.contains x then acc else acc ++ [x]) acc =
    l.foldl (fun acc x => if p x && !(acc.contains x) then acc ++ [x] else acc) acc := by
  induction l generalizing acc with
  | nil => rfl
  | cons x l ih =>
    by_cases hp : p x
    · simp only [List.filter_cons, hp, if_pos, List.foldl_cons]
      by_cases hc : acc.contains x <;> simp only [hc, if_pos, if_neg, Bool.true_and,
        Bool.not_true, Bool.not_false, Bool.and_false, Bool.and_true, if_false, if_true] <;>
        exact ih _
    · simp only [List.filter_cons, hp, if_neg, List.foldl_cons, Bool.false_and, if_false]
      exact ih acc

theorem extract_eq_firstSeenDedup (d : String) :
    extractAcceptanceCriteria (some d) =
      firstSeenDedup
        (((acPatterns.map (fun p => (jsMatchAll p d).map cleanACMatch)).flatten).filter
          (fun s => s != "")) := by
  by_cases hd : d = ""
  · subst hd; decide
  · simp only [extractAcceptanceCriteria, firstSeenDedup]
    rw [if_neg hd, dedup_filter_foldl, List.foldl_flatten, List.foldl_map]
    simp only [List.foldl_map]

/-! ### Lemmas about the cleaning replacements -/

theorem stringMk_data (s : String) : String.mk s.data = s := rfl

theorem reMatch_litCIList (fuel : Nat) (ns : List Char) (s : List Char)
    (k : List Char → Option (List Char)) :
    reMatch fuel (litCIList ns) s k =
      if ciPrefixAt ns s then k (s.drop ns.length) else none := by
  induction ns generalizing s with
  | nil => simp [litCIList, reMatch, ciPrefixAt]
  | cons n ns ih =>
    cases s with
    | nil => simp [litCIList, reMatch, ciPrefixAt]
    | cons c cs =>
      simp only [litCIList, reMatch, ciPrefixAt, ih, List.length_cons, List.drop_succ_cons]
      by_cases hc : c.toLower = n
      · simp [hc]
      · simp [hc, beq_iff_eq]

theorem reMatch_labelRx (fuel : Nat) (n : String) (s : List Char) :
    reMatch fuel (labelRx n) s some =
      if ciPrefixAt n.data s then some (dropColon (s.drop n.data.length)) else none := by
  show reMatch fuel (.seq (litCIList n.data) (.opt (.chr ':'))) s some = _
  simp only [reMatch, reMatch_litCIList]
  by_cases hp : ciPrefixAt n.data s
  · simp only [hp, if_pos]
    cases hrest : s.drop n.data.length with
    | nil => simp [reMatch, dropColon, Option.orElse]
    | cons c cs =>
      by_cases hc : c = ':'
      · subst hc; simp [reMatch, dropColon, Option.orElse]
      · simp only [reMatch]
        rw [if_neg hc]
        simp [dropColon, hc, Option.orElse]
  · simp [hp]

theorem reReplaceAux_labelRx (fuel : Nat) (n : String) (l : List Char) :
    reReplaceAux fuel (labelRx n) l =
      (ciFindIdx n.data l).map
        (fun i => l.take i ++ dropColon (l.drop (i + n.data.length))) := by
  induction l with
  | nil =>
    simp only [reReplaceAux, reMatch_labelRx, ciFindIdx]
    by_cases h : ciPrefixAt n.data [] <;> simp [h]
  | cons c tail ih =>
    simp only [reReplaceAux, reMatch_labelRx, ciFindIdx]
    by_cases h : ciPrefixAt n.data (c :: tail)
    · simp [h]
    · simp only [h, if_neg, Bool.false_eq_true, not_false_iff, if_false, ih]
      cases hfind : ciFindIdx n.data tail with
      | none => simp
      | some i =>
        have harith : i + 1 + n.length = (i + n.length) + 1 := by omega
        simp [harith]

theorem reReplaceFirst_labelRx (n : String) (m : String) :
    reReplaceFirst (labelRx n) m = String.mk (removeLabelCI n.data m.data) := by
  unfold reReplaceFirst removeLabelCI
  rw [reReplaceAux_labelRx]
  cases h : ciFindIdx n.data m.data with
  | none => simp [stringMk_data]
  | some i => simp

/-! ### Claims about the acceptance-criteria extractor -/

/-- C2: for every description string, the extractor collects the matches
of its five patterns in pattern order into one list in which duplicate
strings (compared after cleaning) are suppressed with first-seen order
preserved; in particular, for an input containing a Given/When/Then
sentence and an identical bullet line the duplicate appears once, and for
an input matching none of the five patterns the result is the empty
list. -/
theorem C2_extractor_collects_and_dedups :
    (∀ d : String, extractAcceptanceCriteria (some d) =
      firstSeenDedup
        (((acPatterns.map (fun p => (jsMatchAll p d).map cleanACMatch)).flatten).filter
          (fun s => s != ""))) ∧
    extractAcceptanceCriteria (some "Given a when b then c\nAC:\n* Given a when b then c") =
      ["* Given a when b then c", "Given a when b then c\n\n* Given a when b then c"] ∧
    (extractAcceptanceCriteria
      (some "Given a when b then c\nAC:\n* Given a when b then c")).count
      "* Given a when b then c" = 1 ∧
    extractAcceptanceCriteria (some "nothing to see here") = [] :=
  ⟨extract_eq_firstSeenDedup, by decide, by decide, by decide⟩

/-- C3 counterexample: the cleaning step does not strip only a leading
label prefix — on the pattern-5 match "* Track it" (which carries no
label prefix at all) it deletes the interior letters "ac" of "Track",
so the non-label text is not preserved unchanged. -/
theorem C3_cleaning_alters_interior_text :
    jsMatchAll pat5 "* Track it" = ["* Track it"] ∧
    extractAcceptanceCriteria (some "* Track it") = ["k it", "* Trk it"] ∧
    cleanACMatch "* Track it" = "* Trk it" ∧
    jsTrim "* Track it" = "* Track it" ∧
    ("* Trk it" : String) ≠ "* Track it" :=
  ⟨by decide, by decide, by decide, by decide, by decide⟩

/-- C3 (amended): for every match collected by the extractor, the
cleaning step removes the first occurrence anywhere in the match (not
only a leading prefix) of "acceptance criteria" with an optional
following colon (case-insensitive), then the first occurrence anywhere of
"ac" with an optional following colon (case-insensitive), and then trims
surrounding whitespace; text outside the removed occurrences is
preserved. -/
theorem C3_cleaning_removes_first_occurrence_anywhere (m : String) :
    cleanACMatch m = specCleanACMatch m := by
  unfold cleanACMatch specCleanACMatch
  rw [reReplaceFirst_labelRx, reReplaceFirst_labelRx]

/-! ### Claims about the dispatcher and the handlers -/

/-- A concrete remote environment used to instantiate theorems with
hypotheses at specific inputs. -/
def sampleEnv : RemoteEnv :=
  { baseUrl := "https://example.atlassian.net"
  , getIssueResp := .ok {}
  , searchResp := .ok {}
  , commentsResp := .ok {}
  , transitionsResp := .ok { transitions := some [{ id := "1", name := "Done" }] }
  , postTransitionResp := .ok ()
  , putFieldsResp := .ok ()
  , createResp := .ok { key := some "PROJ-9" }
  , localeDate := fun _ => "1/1/2024" }

theorem dispatch_ok_is_text (name : String) (args : ToolArgs) (env : RemoteEnv)
    (r : ToolResponse) (h : (dispatchTool name args env).1 = .ok r) :
    ∃ t, r = textResponse t := by
  unfold dispatchTool at h
  split_ifs at h
  · rcases henv : env.getIssueResp with e | d <;> simp [getIssue, henv] at h
    exact ⟨_, h.symm⟩
  · rcases henv : env.searchResp with e | d <;> simp [searchIssues, henv] at h
    exact ⟨_, h.symm⟩
  · rcases henv : env.commentsResp with e | d <;> simp [getIssueComments, henv] at h
    exact ⟨_, h.symm⟩
  · rcases henv : env.transitionsResp with e | d <;> simp [getTransitions, henv] at h
    exact ⟨_, h.symm⟩
  · simp [updateIssue] at h
    exact ⟨_, h.symm⟩
  · rcases henv : env.createResp with e | d <;> simp [createIssue, henv] at h
    · exact ⟨_, h.symm⟩
    · exact ⟨_, h.symm⟩

/-- C1: for every incoming tool-call request — including one whose
operation name matches none of the six catalog entries — the dispatcher
returns a successful response envelope containing a single text block;
any error raised during dispatch is caught and rendered as a payload
text beginning with "Error:", and no exception crosses the protocol
boundary. -/
theorem C1_dispatcher_failure_boundary (name : String) (args : ToolArgs) (env : RemoteEnv) :
    ∃ t : String, (handleCallTool name args env).content = [⟨"text", t⟩] ∧
      (∀ e, (dispatchTool name args env).1 = .error e → t = "Error: " ++ e) ∧
      (name ∉ toolNames → t = "Error: " ++ ("Unknown tool: " ++ name)) := by
  rcases hres : (dispatchTool name args env).1 with e | r
  · refine ⟨"Error: " ++ e, ?_, ?_, ?_⟩
    · simp [handleCallTool, hres, textResponse]
    · intro e2 he2
      cases he2
      rfl
    · intro hn
      simp only [toolNames, List.mem_cons, List.not_mem_nil, or_false, not_or] at hn
      obtain ⟨h1, h2, h3, h4, h5, h6⟩ := hn
      unfold dispatchTool at hres
      rw [if_neg h1, if_neg h2, if_neg h3, if_neg h4, if_neg h5, if_neg h6] at hres
      injection hres with h
      rw [← h]
  · obtain ⟨t, rfl⟩ := dispatch_ok_is_text name args env r hres
    refine ⟨t, ?_, ?_, ?_⟩
    · simp [handleCallTool, hres, textResponse]
    · intro e he
      cases he
    · intro hn
      exfalso
      simp only [toolNames, List.mem_cons, List.not_mem_nil, or_false, not_or] at hn
      obtain ⟨h1, h2, h3, h4, h5, h6⟩ := hn
      unfold dispatchTool at hres
      rw [if_neg h1, if_neg h2, if_neg h3, if_neg h4, if_neg h5, if_neg h6] at hres
      cases hres

/-- C1 witness: the unknown-operation case at a concrete input. -/
theorem C1_dispatcher_failure_boundary_witness :
    (handleCallTool "bogus_tool" {} sampleEnv).content =
      [⟨"text", "Error: " ++ ("Unknown tool: " ++ "bogus_tool")⟩] := by
  obtain ⟨t, hc, hke, hu⟩ := C1_dispatcher_failure_boundary "bogus_tool" {} sampleEnv
  rw [hu (by decide)] at hc
  exact hc

theorem strAppend_ne_empty (a b c : String) (hc : c ≠ "") : a ++ b ++ c ≠ "" := by
  intro h
  apply hc
  have hd := congrArg String.data h
  simp only [String.data_append] at hd
  rcases List.append_eq_nil.mp hd with ⟨h1, h2⟩
  cases c with
  | mk l =>
    cases h2
    rfl

/-- C4: Update Issue called with an issue key and only a transition value
that matches no remote transition (by case-insensitive name or exact id)
reports a transition-not-found failure line, issues no PUT request, and
still returns a normal report envelope. -/
theorem C4_update_transition_not_found (k t : String) (env : RemoteEnv)
    (ts : List TransitionData) (ht : t ≠ "")
    (henv : env.transitionsResp = .ok { transitions := some ts })
    (hno : ∀ tr ∈ ts, transitionMatches t tr = false) :
    updateIssue { issueKey := some k, transition := some t } env =
      (.ok (textResponse ("Update results for " ++ k ++ ":\n\n" ++
        ("✗ Failed to change status: Transition \"" ++ t ++
         "\" not found. Use jira_get_transitions to see available options.\n"))),
       [⟨"/issue/" ++ k ++ "/transitions", "GET", [], none⟩]) ∧
    ∀ req ∈ (updateIssue { issueKey := some k, transition := some t } env).2,
      req.method ≠ "PUT" := by
  have hfind : ts.find? (transitionMatches t) = none :=
    List.find?_eq_none.mpr (fun x hx => by simp [hno x hx])
  have hne : ("✗ Failed to change status: Transition \"" ++ t ++
      "\" not found. Use jira_get_transitions to see available options.\n") ≠ "" :=
    strAppend_ne_empty _ _ _ (by decide)
  constructor
  · simp [updateIssue, henv, hfind, truthy, ht, optField, jsShow, hne, String.append_empty]
  · intro req hreq
    simp [updateIssue, henv, hfind, truthy, ht, optField, jsShow] at hreq
    subst hreq
    show ("GET" : String) ≠ "PUT"
    decide

/-- C4 witness: the spec's concrete example, transition
"NonexistentStatus" against the remote list with the single transition
"Done". -/
theorem C4_update_transition_not_found_witness :
    updateIssue { issueKey := some "PROJ-1", transition := some "NonexistentStatus" } sampleEnv =
      (.ok (textResponse ("Update results for " ++ "PROJ-1" ++ ":\n\n" ++
        ("✗ Failed to change status: Transition \"" ++ "NonexistentStatus" ++
         "\" not found. Use jira_get_transitions to see available options.\n"))),
       [⟨"/issue/" ++ "PROJ-1" ++ "/transitions", "GET", [], none⟩]) :=
  (C4_update_transition_not_found "PROJ-1" "NonexistentStatus" sampleEnv
    [{ id := "1", name := "Done" }] (by decide) rfl (by decide)).1

/-- C5: Update Issue resolves a requested transition value to the first
remote transition matching by case-insensitive name or exact id, and
submits the transition by POSTing that transition's id. -/
theorem C5_update_transition_resolution (args : ToolArgs) (env : RemoteEnv)
    (t : String) (ts : List TransitionData) (tr : TransitionData)
    (hT : args.transition = some t) (ht : t ≠ "")
    (henv : env.transitionsResp = .ok { transitions := some ts })
    (hfind : ts.find? (transitionMatches t) = some tr) :
    ∃ rest, (updateIssue args env).2 =
      ⟨"/issue/" ++ jsShow args.issueKey ++ "/transitions", "GET", [], none⟩ ::
      ⟨"/issue/" ++ jsShow args.issueKey ++ "/transitions", "POST", [],
        some (.obj [("transition", .obj [("id", .str tr.id)])])⟩ :: rest := by
  refine ⟨(updateIssue args env).2.drop 2, ?_⟩
  rcases hpost : env.postTransitionResp with e | u <;>
    simp [updateIssue, hT, henv, hfind, hpost, truthy, ht, jsShow]

/-- C5 witness: the spec's concrete example, requesting "done" against
the remote transition named "Done" submits id "1". -/
theorem C5_update_transition_resolution_witness :
    ∃ rest,
      (updateIssue { issueKey := some "PROJ-1", transition := some "done" } sampleEnv).2 =
        ⟨"/issue/" ++ "PROJ-1" ++ "/transitions", "GET", [], none⟩ ::
        ⟨"/issue/" ++ "PROJ-1" ++ "/transitions", "POST", [],
          some (.obj [("transition", .obj [("id", .str "1")])])⟩ :: rest :=
  C5_update_transition_resolution
    { issueKey := some "PROJ-1", transition := some "done" } sampleEnv
    "done" [{ id := "1", name := "Done" }] { id := "1", name := "Done" }
    rfl (by decide) rfl (by decide)

/-- C6: Create Issue with only projectKey and summary supplied submits a
single creation request whose body contains exactly project.key, summary,
and the default issuetype.name "Task", and nothing else. -/
theorem C6_create_minimal_body (pk s : String) (env : RemoteEnv) :
    (createIssue { projectKey := some pk, summary := some s } env).2 =
      [⟨"/issue", "POST", [],
        some (.obj [("fields", .obj
          [("project", .obj [("key", .str pk)]),
           ("summary", .str s),
           ("issuetype", .obj [("name", .str "Task")])])])⟩] := by
  rcases henv : env.createResp with e | d <;> simp [createIssue, henv, optField, optVal]

/-- C7: Search Issues with zero matching remote issues (or a missing
issues array) returns a normal report whose text begins with
"Found 0 issues:" and contains no per-issue blocks. -/
theorem C7_search_zero_results (jql : Option String) (mr : Nat) (env : RemoteEnv)
    (d : SearchData) (henv : env.searchResp = .ok d)
    (hempty : d.issues = none ∨ d.issues = some []) :
    (searchIssues jql mr env).1 = .ok (textResponse "Found 0 issues:\n\n") ∧
    "Found 0 issues:".data.isPrefixOf "Found 0 issues:\n\n".data = true := by
  constructor
  · rcases hempty with h | h <;> simp [searchIssues, henv, h] <;> rfl
  · decide

/-- C7 witness: an empty remote result at a concrete input. -/
theorem C7_search_zero_results_witness :
    (searchIssues (some "project = NOPE AND project != NOPE") 50 sampleEnv).1 =
      .ok (textResponse "Found 0 issues:\n\n") :=
  (C7_search_zero_results (some "project = NOPE AND project != NOPE") 50 sampleEnv
    {} rfl (Or.inl rfl)).1

theorem acSectionSplit (a b : String) :
    a ++ "**Acceptance Criteria:**\n" ++ "None found" ++ b =
    a ++ "**Acceptance Criteria:**\nNone found" ++ b := by
  rw [String.append_assoc a]
  rfl

/-- C8: Get Issue on a remote response with neither a rendered nor a raw
description does not fail: the extractor applied to the missing
description yields the empty list and the report renders "None found" in
the acceptance-criteria section. -/
theorem C8_get_issue_missing_description (k : String) (env : RemoteEnv) (d : GetIssueData)
    (henv : env.getIssueResp = .ok d)
    (hrd : d.renderedDescription = none) (hfd : d.fields.description = none) :
    extractAcceptanceCriteria (jsOrOpt d.renderedDescription d.fields.description) = [] ∧
    ∃ t pre post, (getIssue k env).1 = .ok (textResponse t) ∧
      t = pre ++ "**Acceptance Criteria:**\nNone found" ++ post := by
  have hac : extractAcceptanceCriteria (jsOrOpt d.renderedDescription d.fields.description) = [] := by
    rw [hrd, hfd]
    rfl
  refine ⟨hac, ?_⟩
  refine
    ⟨"**" ++ jsShow d.key ++ ": " ++ jsShow d.fields.summary ++ "**\n\n" ++
     "**Status:** " ++ jsShow d.fields.status ++ "\n" ++
     "**Assignee:** " ++ jsOrStr d.fields.assignee "Unassigned" ++ "\n" ++
     "**Priority:** " ++ jsShow d.fields.priority ++ "\n" ++
     "**URL:** " ++ (env.baseUrl ++ "/browse/" ++ jsShow d.key) ++ "\n\n" ++
     "**Description:**\n" ++ jsShow (jsOrOpt d.renderedDescription d.fields.description) ++ "\n\n" ++
     "**Acceptance Criteria:**\n" ++ "None found" ++
     ("\n\n**Created:** " ++ env.localeDate d.fields.created ++ "\n" ++
      "**Updated:** " ++ env.localeDate d.fields.updated),
     "**" ++ jsShow d.key ++ ": " ++ jsShow d.fields.summary ++ "**\n\n" ++
     "**Status:** " ++ jsShow d.fields.status ++ "\n" ++
     "**Assignee:** " ++ jsOrStr d.fields.assignee "Unassigned" ++ "\n" ++
     "**Priority:** " ++ jsShow d.fields.priority ++ "\n" ++
     "**URL:** " ++ (env.baseUrl ++ "/browse/" ++ jsShow d.key) ++ "\n\n" ++
     "**Description:**\n" ++ jsShow (jsOrOpt d.renderedDescription d.fields.description) ++ "\n\n",
     "\n\n**Created:** " ++ env.localeDate d.fields.created ++ "\n" ++
     "**Updated:** " ++ env.localeDate d.fields.updated, ?_, ?_⟩
  · simp [getIssue, henv, hac]
  · exact acSectionSplit _ _

/-- C8 witness: the missing-description case at a concrete input. -/
theorem C8_get_issue_missing_description_witness :
    extractAcceptanceCriteria (jsOrOpt none none) = [] ∧
    ∃ t pre post, (getIssue "K-1" sampleEnv).1 = .ok (textResponse t) ∧
      t = pre ++ "**Acceptance Criteria:**\nNone found" ++ post :=
  C8_get_issue_missing_description "K-1" sampleEnv {} rfl rfl rfl

/-- C9: the dispatcher substitutes the default 50 for a falsy maxResults
before issuing the search request, so a request for exactly zero results
cannot pass through this interface. -/
theorem C9_search_max_results_default (args : ToolArgs) (env : RemoteEnv) :
    (dispatchTool "jira_search_issues" args env).2 =
      [⟨"/search", "GET",
        [("jql", optVal args.jql), ("maxResults", .num (jsOrNat args.maxResults 50)),
         ("fields", .str "summary,status,assignee,priority,created,updated")], none⟩] ∧
    jsOrNat args.maxResults 50 ≠ 0 ∧ jsOrNat (some 0) 50 = 50 := by
  refine ⟨?_, ?_, rfl⟩
  · rcases henv : env.searchResp with e | d <;> simp [dispatchTool, searchIssues, henv]
  · cases h : args.maxResults with
    | none => simp [jsOrNat]
    | some n => by_cases hn : n = 0 <;> simp [jsOrNat, hn]

/-- C9 witness: maxResults 0 becomes 50 at a concrete input. -/
theorem C9_search_max_results_default_witness :
    (dispatchTool "jira_search_issues" { maxResults := some 0 } sampleEnv).2 =
      [⟨"/search", "GET",
        [("jql", JVal.undefinedVal), ("maxResults", .num 50),
         ("fields", .str "summary,status,assignee,priority,created,updated")], none⟩] ∧
    jsOrNat (some 0) 50 ≠ 0 :=
  ⟨(C9_search_max_results_default { maxResults := some 0 } sampleEnv).1,
   (C9_search_max_results_default { maxResults := some 0 } sampleEnv).2.1⟩

/-- C10: Update Issue with an issue key and every optional argument
absent or equal to the empty string issues no remote request at all and
returns a report ending in "No updates requested". -/
theorem C10_update_no_op (k : String) (args : ToolArgs) (env : RemoteEnv)
    (hk : args.issueKey = some k)
    (h1 : args.transition = none ∨ args.transition = some "")
    (h2 : args.assignee = none ∨ args.assignee = some "")
    (h3 : args.summary = none ∨ args.summary = some "")
    (h4 : args.description = none ∨ args.description = some "")
    (h5 : args.priority = none ∨ args.priority = some "") :
    updateIssue args env =
      (.ok (textResponse ("Update results for " ++ k ++ ":\n\n" ++ "No updates requested")), []) ∧
    ∃ pre, "Update results for " ++ k ++ ":\n\n" ++ "No updates requested" =
      pre ++ "No updates requested" := by
  have ht : truthy args.transition = false := by
    rcases h1 with h | h <;> simp [h, truthy]
  have f2 : optField "assignee" args.assignee (fun a => JVal.obj [("emailAddress", JVal.str a)]) = [] := by
    rcases h2 with h | h <;> simp [h, optField]
  have f3 : optField "summary" args.summary JVal.str = [] := by
    rcases h3 with h | h <;> simp [h, optField]
  have f4 : optField "description" args.description JVal.str = [] := by
    rcases h4 with h | h <;> simp [h, optField]
  have f5 : optField "priority" args.priority (fun p => JVal.obj [("name", JVal.str p)]) = [] := by
    rcases h5 with h | h <;> simp [h, optField]
  constructor
  · simp [updateIssue, hk, ht, f2, f3, f4, f5, jsShow]
  · exact ⟨"Update results for " ++ k ++ ":\n\n", rfl⟩

/-- C10 witness: a mix of absent and empty optional arguments at a
concrete input. -/
theorem C10_update_no_op_witness :
    updateIssue { issueKey := some "PROJ-7", transition := some "", summary := some "" } sampleEnv =
      (.ok (textResponse ("Update results for " ++ "PROJ-7" ++ ":\n\n" ++ "No updates requested")),
       []) :=
  (C10_update_no_op "PROJ-7"
    { issueKey := some "PROJ-7", transition := some "", summary := some "" } sampleEnv
    rfl (Or.inr rfl) (Or.inl rfl) (Or.inr rfl) (Or.inl rfl) (Or.inl rfl)).1
